import Mathlib

/-!
Shallow embedding of the location-tracking screen
(`src/app/(tabs)/location.tsx`, first screen variant) of the
`justanspare/sales` repository.

The screen's React state hooks and refs become the fields of `ScreenState`;
each handler (`requestLocationPermission`, `getCurrentLocation`,
`reverseGeocode`, `formatAddress`, `startLocationTracking`,
`stopLocationTracking`, the `watchPositionAsync` callback and the unmount
cleanup of the `useEffect`) becomes a state-transition function.  Calls to
the device location provider are modelled by passing their outcome as an
explicit argument (`Option` encodes a thrown rejection); two bookkeeping
fields (`releasedHandles`, `geocodeCalls`) log the observable provider-API
effects (subscription `remove()` calls and issued reverse-geocode requests)
so that resource-lifetime properties can be stated.
-/

/-- Mirrors the `LocationData` interface: coordinates, capture timestamp,
optional accuracy and the asynchronously resolved address. Coordinates are
modelled as integers (only their identity matters to the properties). -/
structure LocationData where
  latitude : Int
  longitude : Int
  timestamp : Nat
  accuracy : Option Int
  address : Option String
deriving DecidableEq

/-- Mirrors the `LocationError` interface (`code` and user-facing `message`). -/
structure LocationError where
  code : String
  message : String
deriving DecidableEq

/-- Mirrors `Location.LocationGeocodedAddress` restricted to the components
`formatAddress` reads. `none` models a `null`/`undefined` field. -/
structure GeocodedAddress where
  name : Option String
  street : Option String
  district : Option String
  city : Option String
  region : Option String
deriving DecidableEq

/-- The debounce timer stored in `reverseGeocodeTimeout.current`: the
coordinates captured by the `setTimeout` closure and the time at which
`setTimeout(..., 1000)` was called (the timer fires at `scheduledAt + 1000`). -/
structure PendingGeocode where
  lat : Int
  lon : Int
  scheduledAt : Nat
deriving DecidableEq

/-- A raw position produced by the provider (`coords` of a
`getCurrentPositionAsync` / `watchPositionAsync` result). -/
structure ProviderFix where
  latitude : Int
  longitude : Int
  accuracy : Option Int
deriving DecidableEq

/-- The screen's observable state: the `useState` hooks `location`,
`isTracking`, `isLoading`, `error`, the `startTime` field of `currentTask`,
and the refs `locationSubscription` and `reverseGeocodeTimeout`.
`releasedHandles` logs every subscription handle on which `remove()` was
called; `geocodeCalls` logs every issued `reverseGeocodeAsync` request. -/
structure ScreenState where
  location : Option LocationData
  isTracking : Bool
  isLoading : Bool
  error : Option LocationError
  startTime : Option Nat
  locationSubscription : Option Nat
  reverseGeocodeTimeout : Option PendingGeocode
  releasedHandles : List Nat
  geocodeCalls : List (Int × Int)
deriving DecidableEq

/-- The state right after mount, matching the `useState` initialisers and
`useRef(null)` calls. -/
def initialState : ScreenState :=
  { location := none
    isTracking := false
    isLoading := false
    error := none
    startTime := none
    locationSubscription := none
    reverseGeocodeTimeout := none
    releasedHandles := []
    geocodeCalls := [] }

/-- Error set when `hasServicesEnabledAsync` returns false. -/
def locationDisabledError : LocationError :=
  { code := "LOCATION_DISABLED"
    message := "Location services are disabled. Please enable them in your device settings." }

/-- Error set when foreground permission status is not granted. -/
def permissionDeniedError : LocationError :=
  { code := "PERMISSION_DENIED"
    message := "Location permission denied. Please grant location access to use this feature." }

/-- Error set in the catch block of `requestLocationPermission`. -/
def permissionRequestError : LocationError :=
  { code := "PERMISSION_ERROR"
    message := "Failed to request location permissions. Please try again." }

/-- Error set in the catch block of `getCurrentLocation`. -/
def locationFixError : LocationError :=
  { code := "LOCATION_ERROR"
    message := "Failed to get current location. Please check your GPS signal." }

/-- Error set in the catch block of `startLocationTracking`. -/
def trackingStartError : LocationError :=
  { code := "TRACKING_ERROR"
    message := "Failed to start location tracking. Please try again." }

/-- Embeds `currentLocation.coords.accuracy || undefined`: a `null` or `0`
accuracy (JavaScript falsy) becomes `undefined`. -/
def accuracyOrUndefined : Option Int → Option Int
  | none => none
  | some a => if a = 0 then none else some a

/-- Embeds `if (field) parts.push(field)`: appends the component exactly when
it is JavaScript-truthy, i.e. present and not the empty string. -/
def pushIfTruthy (parts : List String) (field : Option String) : List String :=
  match field with
  | none => parts
  | some s => if s.isEmpty then parts else parts ++ [s]

/-- Embeds `formatAddress`: pushes `name`, `street`, `district`, `city`,
`region` in order when truthy, then joins with `", "` or falls back to
`"Unknown location"`. -/
def formatAddress (address : GeocodedAddress) : String :=
  let parts : List String := []
  let parts := pushIfTruthy parts address.name
  let parts := pushIfTruthy parts address.street
  let parts := pushIfTruthy parts address.district
  let parts := pushIfTruthy parts address.city
  let parts := pushIfTruthy parts address.region
  if parts.length > 0 then String.intercalate ", " parts else "Unknown location"

/-- Formatter written to the spec's own words, for comparison with the code's
`formatAddress`: joins exactly the components that are present, skipping only
the absent ones. -/
def specFormatAddress (address : GeocodedAddress) : String :=
  let parts :=
    [address.name, address.street, address.district, address.city,
      address.region].filterMap id
  if parts.length > 0 then String.intercalate ", " parts else "Unknown location"

/-- Formatter following the spec's words amended for JavaScript truthiness:
joins exactly the components that are present and non-empty. -/
def specFormatAddressTruthy (address : GeocodedAddress) : String :=
  let parts :=
    ([address.name, address.street, address.district, address.city,
      address.region].filterMap id).filter (fun s => !s.isEmpty)
  if parts.length > 0 then String.intercalate ", " parts else "Unknown location"

/-- Embeds `reverseGeocode(latitude, longitude)` up to its suspension: it
clears any existing debounce timer and schedules a fresh one for
`now + 1000`, capturing the given coordinates.  (Replacing the single
`reverseGeocodeTimeout.current` ref cell is exactly the
`clearTimeout` + `setTimeout` pair.) -/
def reverseGeocode (s : ScreenState) (latitude longitude : Int) (now : Nat) :
    ScreenState :=
  { s with reverseGeocodeTimeout :=
             some { lat := latitude, lon := longitude, scheduledAt := now } }

/-- Embeds the body of the `setTimeout` callback in `reverseGeocode`, given
the outcome of `reverseGeocodeAsync`: `none` models a rejected call (the
catch block writes the sentinel address), `some []` an empty component list
(the `addresses.length > 0` test fails and nothing happens), and a non-empty
list patches the address of the current location with the formatted head. -/
def geocodeTimeoutBody (s : ScreenState)
    (result : Option (List GeocodedAddress)) : ScreenState :=
  match result with
  | some [] => s
  | some (a :: _) =>
    { s with location :=
        s.location.map (fun prev => { prev with address := some (formatAddress a) }) }
  | none =>
    { s with location :=
        s.location.map (fun prev => { prev with address := some "Address unavailable" }) }

/-- Fires the pending debounce timer, if any: the geocode request for the
captured coordinates is issued (logged in `geocodeCalls`), the timer is
consumed, and the callback body runs on the provider's answer `geo lat lon`.
With no pending timer nothing happens (a cancelled timer never fires). -/
def fireGeocode (s : ScreenState)
    (geo : Int → Int → Option (List GeocodedAddress)) : ScreenState :=
  match s.reverseGeocodeTimeout with
  | some p =>
    geocodeTimeoutBody
      { s with reverseGeocodeTimeout := none,
               geocodeCalls := s.geocodeCalls ++ [(p.lat, p.lon)] }
      (geo p.lat p.lon)
  | none => s

/-- Embeds `getCurrentLocation`, given the outcome of
`getCurrentPositionAsync` (`none` models a rejection).  On success it stores
a fresh `LocationData` (no address yet) and schedules the debounced
reverse-geocode; on failure it sets `locationFixError` and leaves the stored
location untouched; the `finally` clears the loading flag either way. -/
def getCurrentLocation (s : ScreenState) (fix : Option ProviderFix) (now : Nat) :
    ScreenState :=
  match fix with
  | some f =>
    let locationData : LocationData :=
      { latitude := f.latitude, longitude := f.longitude, timestamp := now
        accuracy := accuracyOrUndefined f.accuracy, address := none }
    let s1 := { s with location := some locationData }
    let s2 := reverseGeocode s1 locationData.latitude locationData.longitude now
    { s2 with isLoading := false }
  | none => { s with error := some locationFixError, isLoading := false }

/-- Embeds `requestLocationPermission`.  `serviceEnabled` is the outcome of
`hasServicesEnabledAsync`, `fgGranted` of `requestForegroundPermissionsAsync`
(`some true` iff status is granted); `none` models a rejection caught by the
surrounding try block.  The handler first sets the loading flag and clears
the error, then checks the service, then the permission, and only then falls
through to `getCurrentLocation`; every exit path clears the loading flag. -/
def requestLocationPermission (s : ScreenState) (serviceEnabled : Option Bool)
    (fgGranted : Option Bool) (fix : Option ProviderFix) (now : Nat) :
    ScreenState :=
  let s0 := { s with isLoading := true, error := none }
  match serviceEnabled with
  | none => { s0 with error := some permissionRequestError, isLoading := false }
  | some false =>
    { s0 with error := some locationDisabledError, isLoading := false }
  | some true =>
    match fgGranted with
    | none => { s0 with error := some permissionRequestError, isLoading := false }
    | some false =>
      { s0 with error := some permissionDeniedError, isLoading := false }
    | some true =>
      let s2 := getCurrentLocation s0 fix now
      { s2 with isLoading := false }

/-- Embeds the `watchPositionAsync` callback: builds a fresh `LocationData`
from the emitted coordinates, carries the previous location's address over
(`address: prev?.address`), stores it, and schedules the debounced
reverse-geocode for the new coordinates. -/
def watchCallback (s : ScreenState) (f : ProviderFix) (now : Nat) : ScreenState :=
  let locationData : LocationData :=
    { latitude := f.latitude, longitude := f.longitude, timestamp := now
      accuracy := accuracyOrUndefined f.accuracy, address := none }
  let stored : LocationData :=
    { locationData with address := s.location.bind (fun prev => prev.address) }
  let s1 := { s with location := some stored }
  reverseGeocode s1 locationData.latitude locationData.longitude now

/-- Embeds `startLocationTracking`.  `bgGranted` is the outcome of
`requestBackgroundPermissionsAsync` — its denial only shows an advisory
alert, so it does not affect the state.  The handler clears the error, sets
the tracking flag and start time, then awaits `watchPositionAsync`:
`watchResult = some handle` stores the new subscription handle in the ref
(overwriting, not removing, any previous one); `none` models a rejection,
caught by setting `trackingStartError` and clearing the tracking flag. -/
def startLocationTracking (s : ScreenState) (bgGranted : Bool)
    (watchResult : Option Nat) (now : Nat) : ScreenState :=
  let s1 := { s with error := none }
  let _ := bgGranted
  let s2 := { s1 with isTracking := true, startTime := some now }
  match watchResult with
  | some handle => { s2 with locationSubscription := some handle }
  | none => { s2 with error := some trackingStartError, isTracking := false }

/-- The start control is rendered only while not tracking
(`!isTracking ? <start button> : <stop button>`). -/
def startButtonVisible (s : ScreenState) : Bool := !s.isTracking

/-- The start control is disabled while loading or in error
(`disabled={isLoading || !!error}`). -/
def startButtonDisabled (s : ScreenState) : Bool := s.isLoading || s.error.isSome

/-- A press on the start control as the UI exposes it: `startLocationTracking`
runs only when the control is rendered and enabled. -/
def pressStartTracking (s : ScreenState) (bgGranted : Bool)
    (watchResult : Option Nat) (now : Nat) : ScreenState :=
  if startButtonVisible s && !startButtonDisabled s then
    startLocationTracking s bgGranted watchResult now
  else s

/-- Embeds `stopLocationTracking`: removes the subscription currently in the
ref (logging the released handle) and nulls the ref, clears the debounce
timer, and clears the tracking flag. -/
def stopLocationTracking (s : ScreenState) : ScreenState :=
  match s.locationSubscription with
  | some h =>
    { s with locationSubscription := none,
             releasedHandles := s.releasedHandles ++ [h],
             reverseGeocodeTimeout := none,
             isTracking := false }
  | none => { s with reverseGeocodeTimeout := none, isTracking := false }

/-- Embeds the `useEffect` cleanup: `stopLocationTracking()` followed by a
redundant `clearTimeout` of the (already cleared) debounce timer. -/
def unmountCleanup (s : ScreenState) : ScreenState :=
  let s1 := stopLocationTracking s
  match s1.reverseGeocodeTimeout with
  | some _ => { s1 with reverseGeocodeTimeout := none }
  | none => s1

/-- Delivery of a provider watch emission: the callback runs only while a
subscription is registered in the ref; after `remove()` the provider no
longer invokes it.  The boolean reports whether the callback was invoked. -/
def deliverWatchUpdate (s : ScreenState) (f : ProviderFix) (now : Nat) :
    ScreenState × Bool :=
  match s.locationSubscription with
  | some _ => (watchCallback s f now, true)
  | none => (s, false)

/-- Processes a timed sequence of watch emissions: before each emission the
pending debounce timer fires if it has come due (`scheduledAt + 1000 ≤ t`),
then the watch callback runs for the emission. -/
def processWatchUpdates (geo : Int → Int → Option (List GeocodedAddress)) :
    ScreenState → List (Nat × ProviderFix) → ScreenState
  | s, [] => s
  | s, (t, f) :: rest =>
    let s1 :=
      match s.reverseGeocodeTimeout with
      | some p => if p.scheduledAt + 1000 ≤ t then fireGeocode s geo else s
      | none => s
    processWatchUpdates geo (watchCallback s1 f t) rest

/-- Holds when each update in the list arrives strictly less than 1000 ms
after the previous time (`tPrev` seeds the chain). -/
def gapsOk : Nat → List (Nat × ProviderFix) → Bool
  | _, [] => true
  | tPrev, (t, _) :: rest => decide (t < tPrev + 1000) && gapsOk t rest

/-- The last element of a nonempty update sequence, given head and tail. -/
def lastUpdate : Nat × ProviderFix → List (Nat × ProviderFix) →
    Nat × ProviderFix
  | u, [] => u
  | _, v :: rest => lastUpdate v rest

/-- Concrete provider fix used by witnesses. -/
def fixA : ProviderFix := { latitude := 40, longitude := -73, accuracy := some 5 }

/-- A second concrete provider fix used by witnesses. -/
def fixB : ProviderFix := { latitude := 41, longitude := -74, accuracy := some 5 }

/-- Concrete geocode oracle used by witnesses: every request is rejected. -/
def geoNone : Int → Int → Option (List GeocodedAddress) := fun _ _ => none

/-- The watch callback never issues a geocode request itself (it only
schedules the debounce timer). -/
lemma watchCallback_geocodeCalls (s : ScreenState) (f : ProviderFix) (now : Nat) :
    (watchCallback s f now).geocodeCalls = s.geocodeCalls := rfl

/-- The watch callback replaces the pending debounce timer with one
capturing the emitted coordinates and scheduled at the emission time. -/
lemma watchCallback_timeout (s : ScreenState) (f : ProviderFix) (now : Nat) :
    (watchCallback s f now).reverseGeocodeTimeout =
      some { lat := f.latitude, lon := f.longitude, scheduledAt := now } := rfl

/-- The timer callback body never issues a further geocode request. -/
lemma geocodeTimeoutBody_geocodeCalls (s : ScreenState)
    (res : Option (List GeocodedAddress)) :
    (geocodeTimeoutBody s res).geocodeCalls = s.geocodeCalls := by
  rcases res with _ | (_ | _) <;> rfl

/-- Pushing a component when truthy is appending its filtered singleton. -/
lemma pushIfTruthy_eq_filter (parts : List String) (f : Option String) :
    pushIfTruthy parts f = parts ++ (f.toList.filter (fun s => !s.isEmpty)) := by
  cases f with
  | none => simp [pushIfTruthy]
  | some s => cases h : s.isEmpty <;> simp [pushIfTruthy, h, Option.toList]

/-- Collecting the present components of the five address fields. -/
lemma filterMap_id_five (o1 o2 o3 o4 o5 : Option String) :
    ([o1, o2, o3, o4, o5].filterMap id) =
      o1.toList ++ (o2.toList ++ (o3.toList ++ (o4.toList ++ o5.toList))) := by
  cases o1 <;> cases o2 <;> cases o3 <;> cases o4 <;> cases o5 <;> rfl

/-- Key debounce invariant: processing a run of watch emissions whose pending
timer (if any) was scheduled at `tPrev` and whose arrival times each fall
strictly within 1000 ms of the previous time fires no geocode request, and
leaves as pending timer the one scheduled by the last emission. -/
lemma processWatchUpdates_quiet (geo : Int → Int → Option (List GeocodedAddress)) :
    ∀ (us : List (Nat × ProviderFix)) (s : ScreenState) (tPrev : Nat),
      (∀ p, s.reverseGeocodeTimeout = some p → p.scheduledAt = tPrev) →
      gapsOk tPrev us = true →
      (processWatchUpdates geo s us).geocodeCalls = s.geocodeCalls ∧
      (processWatchUpdates geo s us).reverseGeocodeTimeout =
        (match us with
         | [] => s.reverseGeocodeTimeout
         | u :: rest =>
           some { lat := (lastUpdate u rest).2.latitude,
                  lon := (lastUpdate u rest).2.longitude,
                  scheduledAt := (lastUpdate u rest).1 }) := by
  intro us
  induction us with
  | nil => intro s tPrev _ _; exact ⟨rfl, rfl⟩
  | cons u rest ih =>
    rcases u with ⟨t, f⟩
    intro s tPrev hp hg
    simp only [gapsOk, Bool.and_eq_true, decide_eq_true_eq] at hg
    obtain ⟨ht, hrest⟩ := hg
    have hs1 : (match s.reverseGeocodeTimeout with
        | some p => if p.scheduledAt + 1000 ≤ t then fireGeocode s geo else s
        | none => s) = s := by
      cases hto : s.reverseGeocodeTimeout with
      | none => rfl
      | some p =>
        have hsched := hp p hto
        have : ¬ (p.scheduledAt + 1000 ≤ t) := by omega
        simp [this]
    have hstep : processWatchUpdates geo s ((t, f) :: rest) =
        processWatchUpdates geo (watchCallback s f t) rest := by
      simp only [processWatchUpdates]
      rw [hs1]
    have ihA := ih (watchCallback s f t) t
      (by intro p hp2
          rw [watchCallback_timeout] at hp2
          cases hp2
          rfl)
      hrest
    obtain ⟨ihc, ihto⟩ := ihA
    rw [hstep]
    refine ⟨by rw [ihc, watchCallback_geocodeCalls], ?_⟩
    rw [ihto]
    cases rest with
    | nil => simp [lastUpdate, watchCallback_timeout]
    | cons v r => rfl

/-- C1 counterexample: in a state that is already tracking with subscription
handle 1, invoking `startLocationTracking` directly does open a second watch
subscription — the provider's new handle 2 overwrites the stored handle, the
old handle is changed away from, and handle 1 is never released. -/
theorem startTracking_while_active_replaces_handle :
    ({ initialState with isTracking := true, locationSubscription := some 1 } : ScreenState).isTracking = true
    ∧ (startLocationTracking { initialState with isTracking := true, locationSubscription := some 1 } true (some 2) 5).locationSubscription = some 2
    ∧ (startLocationTracking { initialState with isTracking := true, locationSubscription := some 1 } true (some 2) 5).locationSubscription
        ≠ ({ initialState with isTracking := true, locationSubscription := some 1 } : ScreenState).locationSubscription
    ∧ (startLocationTracking { initialState with isTracking := true, locationSubscription := some 1 } true (some 2) 5).releasedHandles = [] := by
  decide

/-- C1 amended: exclusivity is enforced at the UI layer, not inside
`startLocationTracking` — while `isTracking = true` the start control is not
rendered, so a start press is a no-op and the subscription handle is
unchanged. -/
theorem pressStart_noop_while_tracking (s : ScreenState) (bgGranted : Bool)
    (watchResult : Option Nat) (now : Nat) (h : s.isTracking = true) :
    startButtonVisible s = false
    ∧ pressStartTracking s bgGranted watchResult now = s
    ∧ (pressStartTracking s bgGranted watchResult now).locationSubscription
        = s.locationSubscription := by
  refine ⟨by simp [startButtonVisible, h], ?_, ?_⟩ <;>
    simp [pressStartTracking, startButtonVisible, h]

/-- C1 witness: the amended no-op guard evaluated on a concrete tracking
state. -/
theorem pressStart_noop_while_tracking_witness :
    startButtonVisible { initialState with isTracking := true, locationSubscription := some 1 } = false
    ∧ pressStartTracking { initialState with isTracking := true, locationSubscription := some 1 } true (some 2) 5
        = { initialState with isTracking := true, locationSubscription := some 1 }
    ∧ (pressStartTracking { initialState with isTracking := true, locationSubscription := some 1 } true (some 2) 5).locationSubscription
        = ({ initialState with isTracking := true, locationSubscription := some 1 } : ScreenState).locationSubscription :=
  pressStart_noop_while_tracking _ true (some 2) 5 rfl

/-- C2: for a sequence of watch emissions each arriving strictly less than
1000 ms after the previous one (and no timer pending beforehand), no
reverse-geocode request is issued during the sequence; the pending timer
afterwards carries the coordinates and time of the last emission, so the one
request issued when it fires after quiescence uses exactly the last
emission's latitude/longitude. -/
theorem debounce_quiescence (s : ScreenState)
    (geo : Int → Int → Option (List GeocodedAddress))
    (t0 : Nat) (f0 : ProviderFix) (rest : List (Nat × ProviderFix))
    (hnone : s.reverseGeocodeTimeout = none)
    (hgaps : gapsOk t0 rest = true) :
    (processWatchUpdates geo s ((t0, f0) :: rest)).geocodeCalls = s.geocodeCalls
    ∧ (processWatchUpdates geo s ((t0, f0) :: rest)).reverseGeocodeTimeout =
        some { lat := (lastUpdate (t0, f0) rest).2.latitude,
               lon := (lastUpdate (t0, f0) rest).2.longitude,
               scheduledAt := (lastUpdate (t0, f0) rest).1 }
    ∧ (fireGeocode (processWatchUpdates geo s ((t0, f0) :: rest)) geo).geocodeCalls =
        s.geocodeCalls ++ [((lastUpdate (t0, f0) rest).2.latitude,
                            (lastUpdate (t0, f0) rest).2.longitude)] := by
  have h := processWatchUpdates_quiet geo ((t0, f0) :: rest) s t0
    (fun p hp => absurd (hnone ▸ hp) (by simp))
    (by simp [gapsOk, hgaps])
  obtain ⟨hc, hto⟩ := h
  refine ⟨hc, hto, ?_⟩
  simp [fireGeocode, hto, geocodeTimeoutBody_geocodeCalls, hc]

/-- C2 witness: two emissions 999 ms apart issue no request during the
sequence, and the post-quiescence fire geocodes the second emission's
coordinates. -/
theorem debounce_quiescence_witness :
    initialState.reverseGeocodeTimeout = none
    ∧ gapsOk 0 [(999, fixB)] = true
    ∧ ((processWatchUpdates geoNone initialState ((0, fixA) :: [(999, fixB)])).geocodeCalls = initialState.geocodeCalls
       ∧ (processWatchUpdates geoNone initialState ((0, fixA) :: [(999, fixB)])).reverseGeocodeTimeout =
           some { lat := (lastUpdate (0, fixA) [(999, fixB)]).2.latitude,
                  lon := (lastUpdate (0, fixA) [(999, fixB)]).2.longitude,
                  scheduledAt := (lastUpdate (0, fixA) [(999, fixB)]).1 }
       ∧ (fireGeocode (processWatchUpdates geoNone initialState ((0, fixA) :: [(999, fixB)])) geoNone).geocodeCalls =
           initialState.geocodeCalls ++ [((lastUpdate (0, fixA) [(999, fixB)]).2.latitude,
                                          (lastUpdate (0, fixA) [(999, fixB)]).2.longitude)]) :=
  ⟨rfl, by decide, debounce_quiescence initialState geoNone 0 fixA [(999, fixB)] rfl (by decide)⟩

/-- C3: the unmount cleanup leaves no subscription and no pending debounce
timer, releases exactly the handle that was held, and afterwards neither a
provider watch emission nor a timer fire can mutate the state (the watch
callback invocation flag is false and the fire is the identity). -/
theorem unmountCleanup_releases (s : ScreenState) (f : ProviderFix) (t : Nat)
    (geo : Int → Int → Option (List GeocodedAddress)) :
    (unmountCleanup s).locationSubscription = none
    ∧ (unmountCleanup s).reverseGeocodeTimeout = none
    ∧ (unmountCleanup s).releasedHandles =
        s.releasedHandles ++
          (match s.locationSubscription with | some h => [h] | none => [])
    ∧ deliverWatchUpdate (unmountCleanup s) f t = (unmountCleanup s, false)
    ∧ fireGeocode (unmountCleanup s) geo = unmountCleanup s := by
  rcases s with ⟨loc, tr, ld, er, st, sub, timo, rel, calls⟩
  cases sub <;>
    simp [unmountCleanup, stopLocationTracking, deliverWatchUpdate, fireGeocode]

/-- C4: `stopLocationTracking` is idempotent — a second call changes nothing
and in particular releases no handle twice; after any call the tracking flag
is off, the debounce timer is cancelled, and exactly the held handle (none,
when none was active) has been released. -/
theorem stopTracking_idempotent (s : ScreenState) :
    stopLocationTracking (stopLocationTracking s) = stopLocationTracking s
    ∧ (stopLocationTracking s).isTracking = false
    ∧ (stopLocationTracking s).reverseGeocodeTimeout = none
    ∧ (stopLocationTracking s).releasedHandles =
        s.releasedHandles ++
          (match s.locationSubscription with | some h => [h] | none => []) := by
  rcases s with ⟨loc, tr, ld, er, st, sub, timo, rel, calls⟩
  cases sub <;> simp [stopLocationTracking]

/-- C5: a failing `getCurrentPositionAsync` sets the fix-unavailable error
(the GPS-signal message) and clears the loading flag while leaving any
previously known position untouched. -/
theorem getCurrentLocation_failure_preserves (s : ScreenState) (now : Nat) :
    (getCurrentLocation s none now).location = s.location
    ∧ (getCurrentLocation s none now).error = some locationFixError
    ∧ (getCurrentLocation s none now).isLoading = false := ⟨rfl, rfl, rfl⟩

/-- C6 counterexample: an empty reverse-geocode component list does not write
the sentinel address — the state is left entirely unchanged, so the address
stays `none` rather than becoming "Address unavailable". -/
theorem geocode_empty_result_no_sentinel :
    (geocodeTimeoutBody
        { initialState with location := some { latitude := 1, longitude := 2, timestamp := 3, accuracy := none, address := none } }
        (some [])).location.bind (fun p => p.address) ≠ some "Address unavailable"
    ∧ geocodeTimeoutBody
        { initialState with location := some { latitude := 1, longitude := 2, timestamp := 3, accuracy := none, address := none } }
        (some [])
      = { initialState with location := some { latitude := 1, longitude := 2, timestamp := 3, accuracy := none, address := none } } := by
  decide

/-- C6 amended: a fired geocode never touches the session error state; a
thrown provider failure writes the sentinel "Address unavailable" into the
current position's address, an empty component list changes nothing at all,
and a non-empty result stores the formatted first component. -/
theorem geocode_failure_soft_degrade (s : ScreenState) (p : LocationData)
    (res : Option (List GeocodedAddress)) (a : GeocodedAddress)
    (rest : List GeocodedAddress) :
    (geocodeTimeoutBody s res).error = s.error
    ∧ (s.location = some p →
        (geocodeTimeoutBody s none).location =
          some { p with address := some "Address unavailable" })
    ∧ geocodeTimeoutBody s (some []) = s
    ∧ (s.location = some p →
        (geocodeTimeoutBody s (some (a :: rest))).location =
          some { p with address := some (formatAddress a) }) := by
  refine ⟨?_, ?_, rfl, ?_⟩
  · rcases res with _ | (_ | _) <;> rfl
  · intro h; simp [geocodeTimeoutBody, h]
  · intro h; simp [geocodeTimeoutBody, h]

/-- C6 witness: the amended geocode-outcome behaviour evaluated on a concrete
state holding a position. -/
theorem geocode_failure_soft_degrade_witness :
    (geocodeTimeoutBody { initialState with location := some { latitude := 1, longitude := 2, timestamp := 3, accuracy := none, address := none } } none).error
        = ({ initialState with location := some { latitude := 1, longitude := 2, timestamp := 3, accuracy := none, address := none } } : ScreenState).error
    ∧ (({ initialState with location := some { latitude := 1, longitude := 2, timestamp := 3, accuracy := none, address := none } } : ScreenState).location
          = some { latitude := 1, longitude := 2, timestamp := 3, accuracy := none, address := none } →
        (geocodeTimeoutBody { initialState with location := some { latitude := 1, longitude := 2, timestamp := 3, accuracy := none, address := none } } none).location =
          some { latitude := 1, longitude := 2, timestamp := 3, accuracy := none,
                 address := some "Address unavailable" })
    ∧ geocodeTimeoutBody { initialState with location := some { latitude := 1, longitude := 2, timestamp := 3, accuracy := none, address := none } } (some []) =
        { initialState with location := some { latitude := 1, longitude := 2, timestamp := 3, accuracy := none, address := none } }
    ∧ (({ initialState with location := some { latitude := 1, longitude := 2, timestamp := 3, accuracy := none, address := none } } : ScreenState).location
          = some { latitude := 1, longitude := 2, timestamp := 3, accuracy := none, address := none } →
        (geocodeTimeoutBody { initialState with location := some { latitude := 1, longitude := 2, timestamp := 3, accuracy := none, address := none } }
            (some [{ name := some "A", street := none, district := none, city := none, region := none }])).location =
          some { latitude := 1, longitude := 2, timestamp := 3, accuracy := none,
                 address := some (formatAddress { name := some "A", street := none, district := none, city := none, region := none }) }) :=
  geocode_failure_soft_degrade
    { initialState with location := some { latitude := 1, longitude := 2, timestamp := 3, accuracy := none, address := none } }
    { latitude := 1, longitude := 2, timestamp := 3, accuracy := none, address := none }
    none
    { name := some "A", street := none, district := none, city := none, region := none }
    []

/-- C7: `requestLocationPermission` fails with the service-disabled error
whenever the service is off (regardless of the permission outcome, i.e. the
service check comes first), fails with the permission-denied error when
foreground authorization is refused — in both cases leaving the stored
position unchanged (so still unset when it was unset) — and on a granted run
proceeds exactly to `getCurrentLocation`. -/
theorem requestPermission_checks_and_denial (s : ScreenState)
    (fgGranted : Option Bool) (fix : Option ProviderFix) (now : Nat) :
    (requestLocationPermission s (some false) fgGranted fix now).error = some locationDisabledError
    ∧ (requestLocationPermission s (some false) fgGranted fix now).location = s.location
    ∧ (requestLocationPermission s (some true) (some false) fix now).error = some permissionDeniedError
    ∧ (requestLocationPermission s (some true) (some false) fix now).location = s.location
    ∧ (s.location = none →
        (requestLocationPermission s (some true) (some false) fix now).location = none)
    ∧ requestLocationPermission s (some true) (some true) fix now =
        { getCurrentLocation { s with isLoading := true, error := none } fix now with
          isLoading := false } := by
  refine ⟨rfl, rfl, rfl, rfl, ?_, rfl⟩
  intro h
  simp [requestLocationPermission, h]

/-- C7 witness: the permission flow evaluated on the fresh mount state. -/
theorem requestPermission_checks_and_denial_witness :
    (requestLocationPermission initialState (some false) (some true) (some fixA) 0).error = some locationDisabledError
    ∧ (requestLocationPermission initialState (some false) (some true) (some fixA) 0).location = initialState.location
    ∧ (requestLocationPermission initialState (some true) (some false) (some fixA) 0).error = some permissionDeniedError
    ∧ (requestLocationPermission initialState (some true) (some false) (some fixA) 0).location = initialState.location
    ∧ (initialState.location = none →
        (requestLocationPermission initialState (some true) (some false) (some fixA) 0).location = none)
    ∧ requestLocationPermission initialState (some true) (some true) (some fixA) 0 =
        { getCurrentLocation { initialState with isLoading := true, error := none } (some fixA) 0 with
          isLoading := false } :=
  requestPermission_checks_and_denial initialState (some true) (some fixA) 0

/-- C8: every watch callback produces a fresh position carrying over the
previous position's resolved address until the re-geocode completes, and a
geocode completion patches only the address subfield — latitude, longitude,
timestamp and accuracy of the stored position are unchanged. -/
theorem watchCallback_geocode_frame (s : ScreenState) (f : ProviderFix) (now : Nat)
    (res : Option (List GeocodedAddress)) :
    (watchCallback s f now).location =
      some { latitude := f.latitude, longitude := f.longitude, timestamp := now,
             accuracy := accuracyOrUndefined f.accuracy,
             address := s.location.bind (fun prev => prev.address) }
    ∧ ((geocodeTimeoutBody s res).location.map
        (fun q => (q.latitude, q.longitude, q.timestamp, q.accuracy)))
      = (s.location.map (fun p => (p.latitude, p.longitude, p.timestamp, p.accuracy))) := by
  constructor
  · rfl
  · rcases s with ⟨loc, tr, ld, er, st, sub, timo, rel, calls⟩
    rcases res with _ | (_ | ⟨a, rest⟩) <;> cases loc <;> simp [geocodeTimeoutBody]

/-- C9 counterexample: on a record whose only component is the present but
empty string `name`, the code yields "Unknown location" while the spec's
join-all-present formatter yields the empty string — "present" alone does
not match the code. -/
theorem formatAddress_ne_spec_on_empty_component :
    formatAddress { name := some "", street := none, district := none, city := none, region := none } = "Unknown location"
    ∧ specFormatAddress { name := some "", street := none, district := none, city := none, region := none } = ""
    ∧ formatAddress { name := some "", street := none, district := none, city := none, region := none }
        ≠ specFormatAddress { name := some "", street := none, district := none, city := none, region := none } := by
  decide

/-- C9 amended: the formatted address is the comma-joined concatenation, in
the fixed order name, street, district, city, region, of exactly the
components that are present and non-empty, with "Unknown location" when none
qualify; in particular street "Main St" with city "Springfield" yields
"Main St, Springfield". -/
theorem formatAddress_spec (a : GeocodedAddress) :
    formatAddress a = specFormatAddressTruthy a
    ∧ formatAddress { name := none, street := some "Main St", district := none, city := some "Springfield", region := none } = "Main St, Springfield"
    ∧ formatAddress { name := none, street := none, district := none, city := none, region := none } = "Unknown location" := by
  refine ⟨?_, by decide, by decide⟩
  simp only [formatAddress, specFormatAddressTruthy, pushIfTruthy_eq_filter,
    filterMap_id_five, List.filter_append, List.append_assoc, List.nil_append]

/-- C10: `requestLocationPermission` clears the error state at entry — its
result does not depend on the prior error, so a retry that succeeds ends
with no error and no separate reset step — and the loading flag is false on
every exit path. -/
theorem requestPermission_clears_error (s : ScreenState) (e : Option LocationError)
    (serviceEnabled fgGranted : Option Bool) (fix : Option ProviderFix) (now : Nat) :
    requestLocationPermission { s with error := e } serviceEnabled fgGranted fix now
      = requestLocationPermission s serviceEnabled fgGranted fix now
    ∧ (requestLocationPermission s serviceEnabled fgGranted fix now).isLoading = false
    ∧ (∀ f, fix = some f → serviceEnabled = some true → fgGranted = some true →
        (requestLocationPermission s serviceEnabled fgGranted fix now).error = none) := by
  refine ⟨?_, ?_, ?_⟩
  · rcases s with ⟨loc, tr, ld, er, st, sub, timo, rel, calls⟩
    rfl
  · rcases serviceEnabled with _ | b
    · rfl
    · cases b
      · rfl
      · rcases fgGranted with _ | c
        · rfl
        · cases c
          · rfl
          · rcases fix with _ | f <;> rfl
  · rintro f rfl rfl rfl
    rfl

/-- C10 witness: a retry after a service-disabled failure that then succeeds
ends with no error and the loading flag off. -/
theorem requestPermission_clears_error_witness :
    requestLocationPermission { initialState with error := some locationDisabledError } (some true) (some true) (some fixA) 0
      = requestLocationPermission initialState (some true) (some true) (some fixA) 0
    ∧ (requestLocationPermission initialState (some true) (some true) (some fixA) 0).isLoading = false
    ∧ (∀ f, some fixA = some f → (some true : Option Bool) = some true → (some true : Option Bool) = some true →
        (requestLocationPermission initialState (some true) (some true) (some fixA) 0).error = none) :=
  requestPermission_clears_error initialState (some locationDisabledError) (some true) (some true) (some fixA) 0
